import Mathlib

/-!
Shallow embedding of ART runtime build-time configuration constants
(`runtime/globals.h`). Preprocessor defines are modelled as `Bool`
parameters; each derived constant is a Lean function of exactly the
defines its source section reads. Integer constants are `Nat`
(all values are small and positive; no overflow occurs in the source
expressions modelled here).
-/

namespace Art

/-- `static constexpr size_t KB = 1024;` -/
def KB : Nat := 1024

/-- `static constexpr size_t MB = KB * KB;` -/
def MB : Nat := KB * KB

/-- `static constexpr int kPageSize = 4096;` -/
def kPageSize : Nat := 4096

/-- `static inline bool CanDoImplicitNullCheckOn(uintptr_t offset) { return offset < kPageSize; }`
The comparison promotes the `int` page size to the unsigned type, so it is an
ordinary comparison of nonnegative values, modelled on `Nat`. -/
def CanDoImplicitNullCheckOn (offset : Nat) : Bool :=
  decide (offset < kPageSize)

/-- `static constexpr size_t kObjectAlignmentShift = 3;` -/
def kObjectAlignmentShift : Nat := 3

/-- `static constexpr size_t kObjectAlignment = 1u << kObjectAlignmentShift;` -/
def kObjectAlignment : Nat := 1 <<< kObjectAlignmentShift

/-- `static constexpr size_t kLargeObjectAlignment = kPageSize;` -/
def kLargeObjectAlignment : Nat := kPageSize

/-- `static constexpr size_t kHeapReferenceSize = sizeof(uint32_t);` -/
def kHeapReferenceSize : Nat := 4

/-- The platform identity resolved by the `ART_TARGET` conditional block:
the pair of constants `kIsTargetBuild` and `kIsTargetLinux`. -/
structure TargetIdentity where
  kIsTargetBuild : Bool
  kIsTargetLinux : Bool
deriving DecidableEq, Repr

/-- The `#if defined(ART_TARGET)` block of `globals.h`, lines 67-86.
`none` models a `#error` directive (fatal build failure); `some` gives the
resolved identity. The `#elif` chains are faithfully ordered: when
`ART_TARGET` is set, `ART_TARGET_LINUX` is tested first, and only if it is
absent is `ART_TARGET_ANDROID` tested; the `#error` fires only when neither
is defined. On a host build (`ART_TARGET` absent) either sub-flag being
defined is a `#error`, with `ART_TARGET_LINUX` tested first. -/
def resolveTarget (artTarget artTargetLinux artTargetAndroid : Bool) :
    Option TargetIdentity :=
  if artTarget then
    if artTargetLinux then
      some { kIsTargetBuild := true, kIsTargetLinux := true }
    else if artTargetAndroid then
      some { kIsTargetBuild := true, kIsTargetLinux := false }
    else
      none
  else
    if artTargetLinux then
      none
    else if artTargetAndroid then
      none
    else
      some { kIsTargetBuild := false, kIsTargetLinux := false }

/-- `#if !defined(ART_TARGET)` → `true`, `#else` → `false` (lines 90-94). -/
def kHostStaticBuildEnabled (artTarget : Bool) : Bool :=
  !artTarget

/-- `static constexpr bool kMovingCollector = true;` -/
def kMovingCollector : Bool := true

/-- The boolean formula on the right-hand side of `kMarkCompactSupport`:
`false && kMovingCollector`, abstracted over the moving-collector flag it
is ANDed against. -/
def markCompactSupportFormula (movingCollector : Bool) : Bool :=
  false && movingCollector

/-- `static constexpr bool kMarkCompactSupport = false && kMovingCollector;` -/
def kMarkCompactSupport : Bool := markCompactSupportFormula kMovingCollector

/-- `static constexpr bool kMovingClasses = !kMarkCompactSupport;` -/
def kMovingClasses : Bool := !kMarkCompactSupport

/-- `kUseBakerOrBrooksReadBarrier = kUseBakerReadBarrier || kUseBrooksReadBarrier`
with the two toggles (each set by an `#ifdef`) as parameters. -/
def kUseBakerOrBrooksReadBarrier (useBaker useBrooks : Bool) : Bool :=
  useBaker || useBrooks

/-- `kUseReadBarrier = kUseBakerReadBarrier || kUseBrooksReadBarrier || kUseTableLookupReadBarrier`
with the three toggles (each set by an `#ifdef`) as parameters. -/
def kUseReadBarrier (useBaker useBrooks useTableLookup : Bool) : Bool :=
  useBaker || useBrooks || useTableLookup

/-- `static constexpr bool kForceReadBarrier = false;` -/
def kForceReadBarrier : Bool := false

/-- `static constexpr bool kEmitCompilerReadBarrier = kForceReadBarrier || kUseReadBarrier;`
parameterised over the three read-barrier toggles that feed `kUseReadBarrier`. -/
def kEmitCompilerReadBarrier (useBaker useBrooks useTableLookup : Bool) : Bool :=
  kForceReadBarrier || kUseReadBarrier useBaker useBrooks useTableLookup

/-- `enum class TraceClockSource { kThreadCpu, kWall, kDual };` -/
inductive TraceClockSource where
  | kThreadCpu
  | kWall
  | kDual
deriving DecidableEq, Repr

/-- `#if defined(__linux__)` → `TraceClockSource::kDual`, `#else` →
`TraceClockSource::kWall` (lines 159-163). -/
def kDefaultTraceClockSource (isLinuxOS : Bool) : TraceClockSource :=
  if isLinuxOS then TraceClockSource.kDual else TraceClockSource.kWall

/-- C1: `CanDoImplicitNullCheckOn` is a total function on unsigned offsets
returning `true` iff the offset is strictly below the page size; in
particular it returns `true` at 0 and 4095 and `false` at 4096 and
`UINT_MAX` (4294967295). -/
theorem c1_implicit_null_check_range :
    (∀ offset : Nat, CanDoImplicitNullCheckOn offset = true ↔ offset < kPageSize) ∧
    CanDoImplicitNullCheckOn 0 = true ∧
    CanDoImplicitNullCheckOn 4095 = true ∧
    CanDoImplicitNullCheckOn 4096 = false ∧
    CanDoImplicitNullCheckOn 4294967295 = false := by
  refine ⟨fun offset => ?_, by decide, by decide, by decide, by decide⟩
  simp [CanDoImplicitNullCheckOn]

/-- C2: for every combination of the three read-barrier toggles,
`kUseReadBarrier` is `true` iff at least one of the Baker, Brooks or
table-lookup toggles is `true`. -/
theorem c2_use_read_barrier_iff_any_toggle :
    ∀ useBaker useBrooks useTableLookup : Bool,
      kUseReadBarrier useBaker useBrooks useTableLookup = true ↔
        (useBaker = true ∨ useBrooks = true ∨ useTableLookup = true) := by
  decide

/-- C3: for every toggle combination, `kEmitCompilerReadBarrier` is `true`
iff `kForceReadBarrier` is set or `kUseReadBarrier` is `true`; and whenever
`kUseReadBarrier` is `true`, `kEmitCompilerReadBarrier` is `true` (encoded
as the boolean implication being identically `true`). -/
theorem c3_emit_compiler_read_barrier :
    ∀ useBaker useBrooks useTableLookup : Bool,
      (kEmitCompilerReadBarrier useBaker useBrooks useTableLookup = true ↔
        (kForceReadBarrier = true ∨
          kUseReadBarrier useBaker useBrooks useTableLookup = true)) ∧
      ((!kUseReadBarrier useBaker useBrooks useTableLookup ||
          kEmitCompilerReadBarrier useBaker useBrooks useTableLookup) = true) := by
  decide

/-- C4 counterexample: with the device-target flag set and BOTH sub-flags
(`ART_TARGET_LINUX` and `ART_TARGET_ANDROID`) defined, the claim says the
build fails, but the source's preprocessor chain takes the
`ART_TARGET_LINUX` branch first and resolves a platform identity. -/
theorem c4_both_subflags_counterexample :
    resolveTarget true true true =
      some { kIsTargetBuild := true, kIsTargetLinux := true } := by
  rfl

/-- C4 (amended): the target validation fails (a `#error` fires, no
resolved identity) exactly when device-target is `true` and neither
sub-flag is set, or device-target is `false` and either sub-flag is set;
every other combination — including device-target with both sub-flags set,
where the Linux branch takes precedence — resolves a platform identity. -/
theorem c4_target_validator_failure_condition :
    ∀ artTarget artTargetLinux artTargetAndroid : Bool,
      resolveTarget artTarget artTargetLinux artTargetAndroid = none ↔
        ((artTarget = true ∧ artTargetLinux = false ∧ artTargetAndroid = false) ∨
          (artTarget = false ∧ (artTargetLinux = true ∨ artTargetAndroid = true))) := by
  decide

/-- C5: `kMarkCompactSupport` boolean-implies `kMovingCollector` (the
implication `!a || b` is identically `true`), and `kMovingClasses` is
`true` iff `kMarkCompactSupport` is `false`. -/
theorem c5_mark_compact_invariants :
    ((!kMarkCompactSupport || kMovingCollector) = true) ∧
    (kMovingClasses = true ↔ kMarkCompactSupport = false) := by
  decide

/-- C6: `kObjectAlignment` equals `2 ^ kObjectAlignmentShift` with shift 3,
hence 8, a power of two; `kLargeObjectAlignment` equals the page size 4096
and is an integer multiple of `kObjectAlignment`; and `kHeapReferenceSize`
is 4 bytes. -/
theorem c6_layout_constants :
    kObjectAlignmentShift = 3 ∧
    kObjectAlignment = 2 ^ kObjectAlignmentShift ∧
    kObjectAlignment = 8 ∧
    kLargeObjectAlignment = kPageSize ∧
    kLargeObjectAlignment = 4096 ∧
    kObjectAlignment ∣ kLargeObjectAlignment ∧
    kHeapReferenceSize = 4 := by
  refine ⟨rfl, rfl, rfl, rfl, rfl, ⟨512, rfl⟩, rfl⟩

/-- C7: `kHostStaticBuildEnabled` is `true` iff the build is a host build
(`ART_TARGET` not defined); device builds report it `false`. -/
theorem c7_host_static_build :
    ∀ artTarget : Bool,
      kHostStaticBuildEnabled artTarget = true ↔ artTarget = false := by
  decide

/-- C8: `kDefaultTraceClockSource` is a function of the host OS family
alone: it is the dual clock exactly on Linux-family kernels, the wall clock
exactly otherwise, and is always one of the three enum values. -/
theorem c8_default_trace_clock_source :
    ∀ isLinuxOS : Bool,
      (kDefaultTraceClockSource isLinuxOS = TraceClockSource.kDual ↔
        isLinuxOS = true) ∧
      (kDefaultTraceClockSource isLinuxOS = TraceClockSource.kWall ↔
        isLinuxOS = false) ∧
      (kDefaultTraceClockSource isLinuxOS = TraceClockSource.kThreadCpu ∨
        kDefaultTraceClockSource isLinuxOS = TraceClockSource.kWall ∨
        kDefaultTraceClockSource isLinuxOS = TraceClockSource.kDual) := by
  decide

/-- C9: `kForceReadBarrier` is fixed to `false`, so for every toggle
combination `kEmitCompilerReadBarrier` coincides exactly with
`kUseReadBarrier`; the transitional override has no observable effect. -/
theorem c9_emit_equals_use :
    kForceReadBarrier = false ∧
    ∀ useBaker useBrooks useTableLookup : Bool,
      kEmitCompilerReadBarrier useBaker useBrooks useTableLookup =
        kUseReadBarrier useBaker useBrooks useTableLookup := by
  decide

/-- C10: `kMarkCompactSupport` is `false`, and its defining formula
`false && movingCollector` is `false` for either value of the
moving-collector flag, so `kMovingClasses` is unconditionally `true`. -/
theorem c10_mark_compact_always_false :
    kMarkCompactSupport = false ∧
    (∀ movingCollector : Bool, markCompactSupportFormula movingCollector = false) ∧
    kMovingClasses = true := by
  decide

end Art
